import Mathlib

/-!
Shallow embedding of the lens-link-ledger rental application's business
logic: the booking cost & inventory reservation workflow (customer
`NewBooking.tsx` flow and staff `Bookings.tsx` flow), the SQL role
resolver `get_user_role`, the cash payment path of
`DepositPaymentDialog.tsx`, and the phone normalization of the
`mpesa-stk-push` gateway function.

Conventions: monetary values (DECIMAL columns, JS numbers) are modelled
as `ℚ`; quantities (parseInt results) as `ℤ`; date-only strings as the
integer day number since the epoch, so that `new Date(s).getTime()`
is `day * 86400000` milliseconds; JS strings as `List Char` where
character-level manipulation matters, `String` otherwise.
-/

namespace LensLink

/-! ### Data model (supabase/migrations/20250803231852_….sql) -/

/-- A row of `inventory_items` as fetched by the booking screens
(`id, name, price_per_day, available_quantity`; `total_quantity` kept
for completeness). -/
structure InventoryItem where
  id : Nat
  name : String
  price_per_day : ℚ
  total_quantity : ℤ
  available_quantity : ℤ
deriving Repr, DecidableEq

/-- A row of `bookings` (the columns the creation flows write). -/
structure BookingRow where
  id : Nat
  customer_id : Nat
  hire_start_date : ℤ
  hire_end_date : ℤ
  total_cost : ℚ
  deposit_amount : ℚ
  balance_amount : ℚ
  status : String
  payment_status : String
deriving Repr, DecidableEq

/-- A row of `booking_items`. -/
structure BookingItemRow where
  booking_id : Nat
  item_id : Nat
  quantity : ℤ
  daily_rate : ℚ
  total_amount : ℚ
deriving Repr, DecidableEq

/-- A row of `payments`. -/
structure PaymentRow where
  booking_id : Nat
  amount : ℚ
  payment_type : String
  mpesa_reference : String
  status : String
deriving Repr, DecidableEq

/-- The tables touched by the booking-creation flows. -/
structure DB where
  bookings : List BookingRow
  booking_items : List BookingItemRow
  inventory_items : List InventoryItem
deriving Repr, DecidableEq

/-- `inventoryItems.find(inv => inv.id === itemId)` — first row with the
given id. -/
def findItem (inv : List InventoryItem) (itemId : Nat) : Option InventoryItem :=
  inv.find? (fun it => it.id == itemId)

/-! ### Role resolver (`get_user_role`, migration lines 109–126)

The SQL function orders a user's `app_user_roles` rows by
`CASE role WHEN 'admin' THEN 1 WHEN 'staff' THEN 2 WHEN 'customer' THEN 3 END`
ascending and takes `LIMIT 1`.  The enum later gains `superadmin`, which
the `CASE` does not mention: its key is SQL `NULL`, and in ascending
order Postgres sorts `NULL` last, i.e. after every ranked role.  An
empty result set makes the scalar function return `NULL` (here `none`).
-/

inductive Role where
  | admin
  | staff
  | customer
  | superadmin
deriving Repr, DecidableEq

/-- The `ORDER BY CASE … END` sort key; `superadmin` falls through the
`CASE` to `NULL`, which sorts after 1, 2 and 3 (NULLS LAST), modelled as
key 4. -/
def roleOrderKey : Role → Nat
  | .admin => 1
  | .staff => 2
  | .customer => 3
  | .superadmin => 4

/-- `public.get_user_role`: the user's role rows sorted by
`roleOrderKey` ascending, `LIMIT 1`; `none` when the user has no row.
(`UNIQUE (user_id, role)` means a user's rows are pairwise distinct, so
the minimum is unambiguous.) -/
def get_user_role (rows : List Role) : Option Role :=
  rows.argmin roleOrderKey

/-! ### Phone normalization (supabase/functions/mpesa-stk-push/index.ts 55–59)

`let formattedPhone = phone_number.replace(/^0/, '254');
 if (!formattedPhone.startsWith('254')) formattedPhone = '254' + formattedPhone;`
-/

/-- `phone_number.replace(/^0/, '254')`: a leading `'0'` character is
replaced by the three characters `254`; any other string is unchanged. -/
def replaceLeadingZero : List Char → List Char
  | '0' :: rest => '2' :: '5' :: '4' :: rest
  | s => s

/-- The phone value sent to the provider as `PartyA` / `PhoneNumber`. -/
def formatPhone (s : List Char) : List Char :=
  let s1 := replaceLeadingZero s
  if (['2', '5', '4'].isPrefixOf s1) then s1 else '2' :: '5' :: '4' :: s1

/-! ### Cash payment path (DepositPaymentDialog.tsx, `handleCashPayment`)

Rejects a non-positive amount, then an amount above the booking's
`deposit_amount`; otherwise inserts a `payments` row with
`payment_type = 'deposit'`, synthetic reference `CASH-${Date.now()}`
and `status = 'completed'`, then sets the booking's `payment_status`
to `'partial'` when `amount >= deposit_amount`, else `'unpaid'`.
-/

/-- Outcome of the cash path: the payments table, the booking's
`payment_status` afterwards, and whether the entry was accepted. -/
structure CashResult where
  payments : List PaymentRow
  payment_status : String
  accepted : Bool
deriving Repr, DecidableEq

/-- `handleCashPayment` for a booking with the given id, deposit amount
and current payment status; `now` models `Date.now()`. -/
def handleCashPayment (bookingId : Nat) (depositAmount : ℚ)
    (curStatus : String) (amount : ℚ) (now : Nat)
    (payments : List PaymentRow) : CashResult :=
  if amount ≤ 0 then
    { payments := payments, payment_status := curStatus, accepted := false }
  else if depositAmount < amount then
    { payments := payments, payment_status := curStatus, accepted := false }
  else
    let row : PaymentRow :=
      { booking_id := bookingId
        amount := amount
        payment_type := "deposit"
        mpesa_reference := "CASH-" ++ toString now
        status := "completed" }
    { payments := payments ++ [row]
      payment_status := if depositAmount ≤ amount then "partial" else "unpaid"
      accepted := true }

/-! ### Customer booking flow (src/pages/NewBooking.tsx)

The form holds a pickup date, a number of rental days, travel options,
a deposit percentage and a list of (item, quantity) lines.  On submit:
validate every line's quantity against the fetched inventory snapshot
(throwing before any write on the first failure), compute the totals,
then perform three sequential writes with no rollback: insert the
booking row, insert the booking-item rows, and decrement each item's
`available_quantity`.
-/

/-- One `{ item_id, quantity }` line of the booking form (quantities are
`parseInt` results). -/
structure BookingLine where
  item_id : Nat
  quantity : ℤ
deriving Repr, DecidableEq

/-- The `NewBooking` form state (dates as epoch day numbers). -/
structure NewBookingForm where
  pickup_date : ℤ
  rental_days : ℤ
  is_traveling : Bool
  late_return_allowance : ℤ
  deposit_percentage : ℚ
  items : List BookingLine
deriving Repr, DecidableEq

/-- `calculateReturnDate`: pickup date plus rental days plus the travel
allowance (when traveling). -/
def newReturnDate (form : NewBookingForm) : ℤ :=
  form.pickup_date + form.rental_days
    + (if form.is_traveling then form.late_return_allowance else 0)

/-- `calculateTotal` of NewBooking.tsx: sum over the form lines of
`price_per_day * quantity * rental_days`, skipping lines whose item is
not in the fetched inventory. -/
def newCalculateTotal (inv : List InventoryItem) (items : List BookingLine)
    (days : ℤ) : ℚ :=
  items.foldl
    (fun total l =>
      match findItem inv l.item_id with
      | none => total
      | some it => total + it.price_per_day * (l.quantity : ℚ) * (days : ℚ))
    0

/-- `validateQuantity`: true iff the item is found and the requested
quantity is at most its `available_quantity`. -/
def validateQuantity (inv : List InventoryItem) (itemId : Nat) (q : ℤ) : Bool :=
  match findItem inv itemId with
  | some it => q ≤ it.available_quantity
  | none => false

/-- The message of the error thrown by the validation loop:
`Quantity exceeds available stock for ${inventoryItem?.name}`. -/
def stockErrorMsg (inv : List InventoryItem) (itemId : Nat) : String :=
  "Quantity exceeds available stock for "
    ++ (match findItem inv itemId with
        | some it => it.name
        | none => "undefined")

/-- The validation loop throws at the first line failing
`validateQuantity`. -/
def firstInvalidLine (inv : List InventoryItem) (items : List BookingLine) :
    Option BookingLine :=
  items.find? (fun l => !(validateQuantity inv l.item_id l.quantity))

/-- The `bookings` row NewBooking.tsx inserts:
`deposit = total * deposit_percentage / 100`, `balance = total - deposit`,
`status = 'pending'`, `payment_status = 'unpaid'`. -/
def newBookingRow (bid customer : Nat) (form : NewBookingForm)
    (inv : List InventoryItem) : BookingRow :=
  let totalCost := newCalculateTotal inv form.items form.rental_days
  let depositAmount := totalCost * form.deposit_percentage / 100
  { id := bid
    customer_id := customer
    hire_start_date := form.pickup_date
    hire_end_date := newReturnDate form
    total_cost := totalCost
    deposit_amount := depositAmount
    balance_amount := totalCost - depositAmount
    status := "pending"
    payment_status := "unpaid" }

/-- The `booking_items` rows NewBooking.tsx inserts, snapshotting each
item's current daily rate (`inventoryItem?.price_per_day || 0`). -/
def newBookingItems (bid : Nat) (inv : List InventoryItem)
    (items : List BookingLine) (days : ℤ) : List BookingItemRow :=
  items.map (fun l =>
    let rate : ℚ :=
      match findItem inv l.item_id with
      | some it => it.price_per_day
      | none => 0
    { booking_id := bid
      item_id := l.item_id
      quantity := l.quantity
      daily_rate := rate
      total_amount := rate * (l.quantity : ℚ) * (days : ℚ) })

/-- One iteration of the inventory-update loop: set the row with the
line's id to `snapshotAvailable - quantity` (the subtraction uses the
client's fetched snapshot, not the stored row); a line whose item is
missing from the snapshot issues no update. -/
def applyLineDecrement (snap : List InventoryItem) (cur : List InventoryItem)
    (l : BookingLine) : List InventoryItem :=
  match findItem snap l.item_id with
  | none => cur
  | some it =>
      cur.map (fun x =>
        if x.id = l.item_id then
          { x with available_quantity := it.available_quantity - l.quantity }
        else x)

/-- The inventory-update loop when every update succeeds. -/
def applyDecrements (snap : List InventoryItem) (items : List BookingLine)
    (cur : List InventoryItem) : List InventoryItem :=
  items.foldl (applyLineDecrement snap) cur

/-- Number of update calls the loop issues (lines whose item the
snapshot contains). -/
def numUpdateCalls (snap : List InventoryItem) (items : List BookingLine) : Nat :=
  (items.filter (fun l => (findItem snap l.item_id).isSome)).length

/-- The inventory-update loop under failure injection: the first
`budget` update calls succeed and the next one (if any) errors, aborting
the remaining iterations but keeping the updates already made. -/
def runDecrements (snap : List InventoryItem) :
    Nat → List BookingLine → List InventoryItem →
    List InventoryItem × Option String
  | _, [], cur => (cur, none)
  | budget, l :: rest, cur =>
      match findItem snap l.item_id with
      | none => runDecrements snap budget rest cur
      | some _ =>
          match budget with
          | 0 => (cur, some "inventory update failed")
          | b + 1 => runDecrements snap b rest (applyLineDecrement snap cur l)

/-- Failure schedule for the three sequential writes of a submission:
whether the booking insert succeeds, whether the booking-items insert
succeeds, and how many inventory update calls succeed before one fails
(`invBudget ≥ numUpdateCalls` means they all succeed). -/
structure WriteSched where
  insertBookingOk : Bool
  insertItemsOk : Bool
  invBudget : Nat
deriving Repr, DecidableEq

/-- A schedule on which every write succeeds (for a form of at most
`n` lines). -/
def allOk (n : Nat) : WriteSched :=
  { insertBookingOk := true, insertItemsOk := true, invBudget := n }

/-- Result of a submission: the database afterwards and the error shown
by the catch block, if any. -/
structure SubmitResult where
  db : DB
  error : Option String
deriving Repr, DecidableEq

/-- `handleSubmit` of NewBooking.tsx: validate every line against the
fetched snapshot (throw before any write on the first invalid line),
then sequentially (1) insert the booking row, (2) insert the
booking-item rows, (3) decrement inventory per line.  An error at any
step aborts the remaining steps; committed writes stay. -/
def newBookingSubmit (sched : WriteSched) (bid customer : Nat)
    (form : NewBookingForm) (db : DB) : SubmitResult :=
  let inv := db.inventory_items
  match firstInvalidLine inv form.items with
  | some l => { db := db, error := some (stockErrorMsg inv l.item_id) }
  | none =>
      if !sched.insertBookingOk then
        { db := db, error := some "booking insert failed" }
      else
        let db1 := { db with bookings := db.bookings ++ [newBookingRow bid customer form inv] }
        if !sched.insertItemsOk then
          { db := db1, error := some "booking items insert failed" }
        else
          let db2 := { db1 with
            booking_items := db1.booking_items
              ++ newBookingItems bid inv form.items form.rental_days }
          let step3 := runDecrements inv sched.invBudget form.items db2.inventory_items
          { db := { db2 with inventory_items := step3.1 }, error := step3.2 }

/-! ### Staff booking flow (src/pages/Bookings.tsx)

The management dialog takes a customer, explicit start and end dates, a
manually entered deposit amount, and (item, quantity) lines.
`calculateTotal` derives the day count as
`Math.ceil((end - start) / (1000*60*60*24))` — with no `+ 1`.
`handleSubmit` performs NO stock validation and writes only the
`bookings` row and the `booking_items` rows; it never touches
`inventory_items`.
-/

/-- Day count of Bookings.tsx `calculateTotal`:
`Math.ceil((endDate.getTime() - startDate.getTime()) / 86400000)` where
a date-only string parses to `day * 86400000` ms. -/
def bookingsRentalDays (startDay endDay : ℤ) : ℤ :=
  ⌈(((endDay * 86400000 - startDay * 86400000 : ℤ) : ℚ)) / 86400000⌉

/-- `calculateTotal` of Bookings.tsx: sum of
`price_per_day * quantity * days` over lines whose item is found. -/
def bookingsCalculateTotal (inv : List InventoryItem)
    (items : List BookingLine) (startDay endDay : ℤ) : ℚ :=
  let days := bookingsRentalDays startDay endDay
  items.foldl
    (fun total l =>
      match findItem inv l.item_id with
      | some it => total + it.price_per_day * (l.quantity : ℚ) * (days : ℚ)
      | none => total)
    0

/-- The `bookings` row the staff dialog inserts: total from
`calculateTotal`, deposit as entered (`parseFloat(formData.deposit_amount)`),
balance the difference. -/
def staffBookingRow (bid customer : Nat) (startDay endDay : ℤ)
    (depositInput : ℚ) (inv : List InventoryItem) (items : List BookingLine) :
    BookingRow :=
  let totalCost := bookingsCalculateTotal inv items startDay endDay
  { id := bid
    customer_id := customer
    hire_start_date := startDay
    hire_end_date := endDay
    total_cost := totalCost
    deposit_amount := depositInput
    balance_amount := totalCost - depositInput
    status := "pending"
    payment_status := "unpaid" }

/-- The `booking_items` rows the staff dialog inserts (same day-count
formula, rate snapshot `inventoryItem?.price_per_day || 0`). -/
def staffBookingItems (bid : Nat) (inv : List InventoryItem)
    (items : List BookingLine) (startDay endDay : ℤ) : List BookingItemRow :=
  let days := bookingsRentalDays startDay endDay
  items.map (fun l =>
    let rate : ℚ :=
      match findItem inv l.item_id with
      | some it => it.price_per_day
      | none => 0
    { booking_id := bid
      item_id := l.item_id
      quantity := l.quantity
      daily_rate := rate
      total_amount := rate * (l.quantity : ℚ) * (days : ℚ) })

/-- `handleSubmit` of Bookings.tsx in create mode (`editingBooking`
null): insert the booking row, then the booking-item rows.  No quantity
validation, no inventory write.  `ok1`/`ok2` inject failures of the two
inserts. -/
def staffSubmit (ok1 ok2 : Bool) (bid customer : Nat) (startDay endDay : ℤ)
    (depositInput : ℚ) (items : List BookingLine) (db : DB) : SubmitResult :=
  if !ok1 then
    { db := db, error := some "Failed to save booking" }
  else
    let db1 := { db with
      bookings := db.bookings
        ++ [staffBookingRow bid customer startDay endDay depositInput
              db.inventory_items items] }
    if !ok2 then
      { db := db1, error := some "Failed to save booking" }
    else
      { db := { db1 with
          booking_items := db1.booking_items
            ++ staffBookingItems bid db.inventory_items items startDay endDay }
        error := none }

/-! ### Read-side day count (src/unnamed/part_001, MyBookings display)

`calculateDays` of the customer's booking list screen computes
`Math.ceil(Math.abs(end - start) / 86400000) + 1` — the inclusive
variant, used only for display. -/

/-- `calculateDays` of the MyBookings screen. -/
def myBookingsCalculateDays (startDay endDay : ℤ) : ℤ :=
  ⌈((|endDay * 86400000 - startDay * 86400000| : ℤ) : ℚ) / 86400000⌉ + 1

/-! ### Concrete example data (for witnesses and counterexamples) -/

/-- A camera renting at 1000/day with 2 units available. -/
def exCamera : InventoryItem :=
  { id := 1, name := "Camera", price_per_day := 1000, total_quantity := 5,
    available_quantity := 2 }

/-- A lens renting at 333/day. -/
def exLens : InventoryItem :=
  { id := 1, name := "Lens", price_per_day := 333, total_quantity := 5,
    available_quantity := 5 }

/-- A database holding only `exCamera`. -/
def exDB : DB := { bookings := [], booking_items := [], inventory_items := [exCamera] }

/-- A NewBooking form requesting 3 cameras (more than the 2 available),
pickup 2024-01-01 (epoch day 19723), 2 days, 50% deposit. -/
def exOverForm : NewBookingForm :=
  { pickup_date := 19723, rental_days := 2, is_traveling := false,
    late_return_allowance := 0, deposit_percentage := 50,
    items := [{ item_id := 1, quantity := 3 }] }

/-- The same form requesting only 2 cameras (within stock). -/
def exOkForm : NewBookingForm :=
  { exOverForm with items := [{ item_id := 1, quantity := 2 }] }

/-- A NewBooking form for one lens-day at 30% deposit: total 333,
deposit 99.9. -/
def exLensForm : NewBookingForm :=
  { pickup_date := 0, rental_days := 1, is_traveling := false,
    late_return_allowance := 0, deposit_percentage := 30,
    items := [{ item_id := 1, quantity := 1 }] }

/-! ### Helper lemmas -/

/-- With date-only values the millisecond quotient is exact, so the
staff flow's day count is just the difference of the day numbers —
an exclusive count, with no `+ 1`. -/
theorem bookingsRentalDays_eq (s e : ℤ) : bookingsRentalDays s e = e - s := by
  unfold bookingsRentalDays
  rw [show ((e * 86400000 - s * 86400000 : ℤ) : ℚ) / 86400000 = ((e - s : ℤ) : ℚ) by
    push_cast
    field_simp
    ring]
  exact Int.ceil_intCast _

/-- The MyBookings display day count is the inclusive `|e - s| + 1`. -/
theorem myBookingsCalculateDays_eq (s e : ℤ) :
    myBookingsCalculateDays s e = |e - s| + 1 := by
  unfold myBookingsCalculateDays
  rw [show e * 86400000 - s * 86400000 = (e - s) * 86400000 by ring]
  rw [show ((|(e - s) * 86400000| : ℤ) : ℚ) / 86400000 = ((|e - s| : ℤ) : ℚ) by
    rw [abs_mul]
    push_cast
    field_simp]
  rw [Int.ceil_intCast]

/-- Whatever the failure schedule, a customer-flow submission leaves
`bookings` unchanged or appends exactly the computed booking row. -/
theorem newBookingSubmit_bookings_cases (sched : WriteSched) (bid customer : Nat)
    (form : NewBookingForm) (db : DB) :
    (newBookingSubmit sched bid customer form db).db.bookings = db.bookings ∨
    (newBookingSubmit sched bid customer form db).db.bookings =
      db.bookings ++ [newBookingRow bid customer form db.inventory_items] := by
  unfold newBookingSubmit
  cases h : firstInvalidLine db.inventory_items form.items with
  | some l => simp [h]
  | none =>
      cases hb : sched.insertBookingOk with
      | false => simp [h, hb]
      | true =>
          cases hi : sched.insertItemsOk with
          | false => simp [h, hb, hi]
          | true => simp [h, hb, hi]

/-- Whatever the failure flags, a staff-flow submission leaves
`bookings` unchanged or appends exactly the computed booking row. -/
theorem staffSubmit_bookings_cases (ok1 ok2 : Bool) (bid customer : Nat)
    (startDay endDay : ℤ) (depositInput : ℚ) (items : List BookingLine)
    (db : DB) :
    (staffSubmit ok1 ok2 bid customer startDay endDay depositInput items
        db).db.bookings = db.bookings ∨
    (staffSubmit ok1 ok2 bid customer startDay endDay depositInput items
        db).db.bookings =
      db.bookings ++ [staffBookingRow bid customer startDay endDay depositInput
        db.inventory_items items] := by
  unfold staffSubmit
  cases ok1 <;> cases ok2 <;> simp

/-- The inventory-update loop with failure budget: it performs the
snapshot decrements of a prefix of the lines; the prefix is proper
exactly when the budget is below the number of update calls, in which
case it errors, and is the whole list exactly when the budget covers
every call. -/
theorem runDecrements_spec (snap : List InventoryItem) :
    ∀ (items : List BookingLine) (budget : Nat) (cur : List InventoryItem),
      ∃ k ≤ items.length,
        runDecrements snap budget items cur =
          (applyDecrements snap (items.take k) cur,
           if budget < numUpdateCalls snap items then
             some "inventory update failed" else none) ∧
        (budget < numUpdateCalls snap items → k < items.length) ∧
        (numUpdateCalls snap items ≤ budget → k = items.length) := by
  intro items
  induction items with
  | nil =>
      intro budget cur
      refine ⟨0, le_refl _, ?_, by simp [numUpdateCalls], by simp⟩
      simp [runDecrements, applyDecrements, numUpdateCalls]
  | cons l rest ih =>
      intro budget cur
      cases hf : findItem snap l.item_id with
      | none =>
          obtain ⟨k, hk, heq, hlt, hfull⟩ := ih budget cur
          have hcalls : numUpdateCalls snap (l :: rest) = numUpdateCalls snap rest := by
            simp [numUpdateCalls, List.filter_cons, hf]
          refine ⟨k + 1, by simpa using Nat.succ_le_succ hk, ?_, ?_, ?_⟩
          · rw [show runDecrements snap budget (l :: rest) cur
                  = runDecrements snap budget rest cur by
                simp [runDecrements, hf]]
            rw [heq, hcalls]
            simp only [Prod.mk.injEq]
            refine ⟨?_, trivial⟩
            simp [applyDecrements, List.take_succ_cons, applyLineDecrement, hf]
          · intro hb
            rw [hcalls] at hb
            simpa using Nat.succ_lt_succ (hlt hb)
          · intro hb
            rw [hcalls] at hb
            simp [hfull hb]
      | some it =>
          have hcalls : numUpdateCalls snap (l :: rest) = numUpdateCalls snap rest + 1 := by
            simp [numUpdateCalls, List.filter_cons, hf, Nat.add_comm]
          cases budget with
          | zero =>
              refine ⟨0, by simp, ?_, by simp, ?_⟩
              · rw [show runDecrements snap 0 (l :: rest) cur
                      = (cur, some "inventory update failed") by
                    simp [runDecrements, hf]]
                rw [hcalls]
                simp [applyDecrements]
              · intro hb
                rw [hcalls] at hb
                omega
          | succ b =>
              obtain ⟨k, hk, heq, hlt, hfull⟩ := ih b (applyLineDecrement snap cur l)
              refine ⟨k + 1, by simpa using Nat.succ_le_succ hk, ?_, ?_, ?_⟩
              · rw [show runDecrements snap (b + 1) (l :: rest) cur
                      = runDecrements snap b rest (applyLineDecrement snap cur l) by
                    simp [runDecrements, hf]]
                rw [heq, hcalls]
                have hiff : (b + 1 < numUpdateCalls snap rest + 1) ↔
                    (b < numUpdateCalls snap rest) := by omega
                simp only [Prod.mk.injEq]
                refine ⟨?_, by simp [hiff]⟩
                simp [applyDecrements, List.take_succ_cons]
              · intro hb
                rw [hcalls] at hb
                have hb' : b < numUpdateCalls snap rest := by omega
                simpa using Nat.succ_lt_succ (hlt hb')
              · intro hb
                rw [hcalls] at hb
                have hb' : numUpdateCalls snap rest ≤ b := by omega
                simp [hfull hb']

/-! ### Claim theorems -/

/-- C6 (code bug): evaluating `get_user_role` at the failing input.  A
user with role rows `{superadmin, customer}` resolves to `customer`,
because the ordering `CASE` assigns no rank to `superadmin` and SQL
sorts its `NULL` key last — contradicting the claimed priority order
`admin/superadmin > staff > customer`.  A user with `{staff, customer}`
does resolve to `staff`, and one with no role row yields SQL `NULL`
(`none`), not the string `customer`. -/
theorem c6_get_user_role_failing_input :
    get_user_role [Role.superadmin, Role.customer] = some Role.customer ∧
    get_user_role [Role.staff, Role.customer] = some Role.staff ∧
    get_user_role ([] : List Role) = none := by
  refine ⟨by decide, by rfl, by rfl⟩

/-- C8: the push-payment gateway's phone normalization always yields a
value starting with `254`, and an input beginning with `0` has that
leading zero replaced by `254`. -/
theorem c8_phone_normalized_254 :
    (∀ s : List Char, (['2', '5', '4'].isPrefixOf (formatPhone s)) = true) ∧
    (∀ rest : List Char, formatPhone ('0' :: rest) = '2' :: '5' :: '4' :: rest) := by
  constructor
  · intro s
    show (['2', '5', '4'].isPrefixOf
        (if ['2', '5', '4'].isPrefixOf (replaceLeadingZero s) then
          replaceLeadingZero s
         else '2' :: '5' :: '4' :: replaceLeadingZero s)) = true
    by_cases h : (['2', '5', '4'].isPrefixOf (replaceLeadingZero s)) = true
    · rw [if_pos h]
      exact h
    · rw [if_neg h]
      simp [List.isPrefixOf]
  · intro rest
    simp [formatPhone, replaceLeadingZero, List.isPrefixOf]

/-- C7: the cash payment path rejects any amount above the booking's
`deposit_amount` without writing; an accepted amount (positive and at
most the deposit) is immediately recorded as a `payments` row with
`status = 'completed'` and a synthetic `CASH-` reference, and a cash
payment of exactly the deposit amount sets the booking's
`payment_status` to `'partial'` — the deposit-paid state, not the fully
paid one. -/
theorem c7_cash_payment_exact_deposit (bid : Nat) (dep : ℚ) (cur : String)
    (a : ℚ) (now : Nat) (ps : List PaymentRow) :
    (dep < a → handleCashPayment bid dep cur a now ps =
        { payments := ps, payment_status := cur, accepted := false }) ∧
    (0 < a → a ≤ dep →
      (handleCashPayment bid dep cur a now ps).accepted = true ∧
      (handleCashPayment bid dep cur a now ps).payments =
        ps ++ [{ booking_id := bid, amount := a, payment_type := "deposit",
                 mpesa_reference := "CASH-" ++ toString now,
                 status := "completed" }] ∧
      (a = dep →
        (handleCashPayment bid dep cur a now ps).payment_status = "partial" ∧
        (handleCashPayment bid dep cur a now ps).payment_status ≠ "paid")) := by
  constructor
  · intro h
    rcases le_or_lt a 0 with h0 | h0
    · simp [handleCashPayment, h0]
    · have h1 : ¬ a ≤ 0 := not_le.mpr h0
      simp [handleCashPayment, h1, h]
  · intro h0 hle
    have h1 : ¬ a ≤ 0 := not_le.mpr h0
    have h2 : ¬ dep < a := not_lt.mpr hle
    refine ⟨by simp [handleCashPayment, h1, h2], by simp [handleCashPayment, h1, h2], ?_⟩
    intro ha
    have hge : dep ≤ a := le_of_eq ha.symm
    constructor <;> simp [handleCashPayment, h1, h2, hge]

/-- Witness for C7: cash payment of 1500 against a booking with
`deposit_amount = 1500` — accepted, recorded completed with a `CASH-`
reference, booking becomes `'partial'`. -/
theorem c7_cash_payment_exact_deposit_witness :
    (handleCashPayment 1 1500 "unpaid" 1500 0 []).accepted = true ∧
    (handleCashPayment 1 1500 "unpaid" 1500 0 []).payments =
      [{ booking_id := 1, amount := 1500, payment_type := "deposit",
         mpesa_reference := "CASH-0", status := "completed" }] ∧
    (handleCashPayment 1 1500 "unpaid" 1500 0 []).payment_status = "partial" := by
  have h := (c7_cash_payment_exact_deposit 1 1500 "unpaid" 1500 0 []).2
    (by norm_num) (by norm_num)
  exact ⟨h.1, by simpa using h.2.1, (h.2.2 rfl).1⟩

/-- C10: in the cash payment path any accepted amount strictly below the
deposit amount still inserts a `status = 'completed'` payment row but
sets the booking's `payment_status` to `'unpaid'`; the `'partial'` state
arises exactly when the amount is at least the deposit. -/
theorem c10_cash_below_deposit_unpaid (bid : Nat) (dep : ℚ) (cur : String)
    (a : ℚ) (now : Nat) (ps : List PaymentRow) :
    (0 < a → a < dep →
      (handleCashPayment bid dep cur a now ps).accepted = true ∧
      (handleCashPayment bid dep cur a now ps).payments =
        ps ++ [{ booking_id := bid, amount := a, payment_type := "deposit",
                 mpesa_reference := "CASH-" ++ toString now,
                 status := "completed" }] ∧
      (handleCashPayment bid dep cur a now ps).payment_status = "unpaid") ∧
    (0 < a → a ≤ dep →
      ((handleCashPayment bid dep cur a now ps).payment_status = "partial" ↔
        dep ≤ a)) := by
  constructor
  · intro h0 hlt
    have h1 : ¬ a ≤ 0 := not_le.mpr h0
    have h2 : ¬ dep < a := not_lt.mpr (le_of_lt hlt)
    have h3 : ¬ dep ≤ a := not_le.mpr hlt
    refine ⟨by simp [handleCashPayment, h1, h2],
            by simp [handleCashPayment, h1, h2],
            by simp [handleCashPayment, h1, h2, h3]⟩
  · intro h0 hle
    have h1 : ¬ a ≤ 0 := not_le.mpr h0
    have h2 : ¬ dep < a := not_lt.mpr hle
    by_cases hge : dep ≤ a
    · simp [handleCashPayment, h1, h2, hge]
    · simp [handleCashPayment, h1, h2, hge]

/-- Witness for C10: a cash payment of 700 against a deposit of 1500 is
recorded completed, yet the booking stays `'unpaid'`. -/
theorem c10_cash_below_deposit_unpaid_witness :
    (handleCashPayment 1 1500 "unpaid" 700 0 []).accepted = true ∧
    (handleCashPayment 1 1500 "unpaid" 700 0 []).payments =
      [{ booking_id := 1, amount := 700, payment_type := "deposit",
         mpesa_reference := "CASH-0", status := "completed" }] ∧
    (handleCashPayment 1 1500 "unpaid" 700 0 []).payment_status = "unpaid" := by
  have h := (c10_cash_below_deposit_unpaid 1 1500 "unpaid" 700 0 []).1
    (by norm_num) (by norm_num)
  exact ⟨h.1, by simpa using h.2.1, h.2.2⟩

/-- C4: on either creation path, every booking row a submission adds to
the `bookings` table satisfies
`total_cost = deposit_amount + balance_amount` (rows already present
are untouched). -/
theorem c4_total_eq_deposit_plus_balance :
    (∀ (sched : WriteSched) (bid customer : Nat) (form : NewBookingForm)
        (db : DB),
      ∀ r ∈ (newBookingSubmit sched bid customer form db).db.bookings,
        r ∈ db.bookings ∨ r.total_cost = r.deposit_amount + r.balance_amount) ∧
    (∀ (ok1 ok2 : Bool) (bid customer : Nat) (startDay endDay : ℤ)
        (depositInput : ℚ) (items : List BookingLine) (db : DB),
      ∀ r ∈ (staffSubmit ok1 ok2 bid customer startDay endDay depositInput
          items db).db.bookings,
        r ∈ db.bookings ∨ r.total_cost = r.deposit_amount + r.balance_amount) := by
  constructor
  · intro sched bid customer form db r hr
    rcases newBookingSubmit_bookings_cases sched bid customer form db with h | h
    · rw [h] at hr
      exact Or.inl hr
    · rw [h] at hr
      rcases List.mem_append.mp hr with h1 | h1
      · exact Or.inl h1
      · right
        have hrow : r = newBookingRow bid customer form db.inventory_items := by
          simpa using h1
        subst hrow
        simp [newBookingRow]
  · intro ok1 ok2 bid customer startDay endDay depositInput items db r hr
    rcases staffSubmit_bookings_cases ok1 ok2 bid customer startDay endDay
      depositInput items db with h | h
    · rw [h] at hr
      exact Or.inl hr
    · rw [h] at hr
      rcases List.mem_append.mp hr with h1 | h1
      · exact Or.inl h1
      · right
        have hrow : r = staffBookingRow bid customer startDay endDay
            depositInput db.inventory_items items := by
          simpa using h1
        subst hrow
        simp [staffBookingRow]

/-- Witness for C4: the row created by a concrete staff submission is in
the final `bookings` table and satisfies the invariant. -/
theorem c4_total_eq_deposit_plus_balance_witness :
    (staffBookingRow 7 9 19723 19725 500 exDB.inventory_items
        [{ item_id := 1, quantity := 1 }]) ∈
      (staffSubmit true true 7 9 19723 19725 500
        [{ item_id := 1, quantity := 1 }] exDB).db.bookings ∧
    ((staffBookingRow 7 9 19723 19725 500 exDB.inventory_items
        [{ item_id := 1, quantity := 1 }]) ∈ exDB.bookings ∨
      (staffBookingRow 7 9 19723 19725 500 exDB.inventory_items
        [{ item_id := 1, quantity := 1 }]).total_cost =
        (staffBookingRow 7 9 19723 19725 500 exDB.inventory_items
          [{ item_id := 1, quantity := 1 }]).deposit_amount +
        (staffBookingRow 7 9 19723 19725 500 exDB.inventory_items
          [{ item_id := 1, quantity := 1 }]).balance_amount) := by
  have hmem : (staffBookingRow 7 9 19723 19725 500 exDB.inventory_items
      [{ item_id := 1, quantity := 1 }]) ∈
        (staffSubmit true true 7 9 19723 19725 500
          [{ item_id := 1, quantity := 1 }] exDB).db.bookings := by
    simp [staffSubmit, exDB]
  exact ⟨hmem, c4_total_eq_deposit_plus_balance.2 true true 7 9 19723 19725 500
    [{ item_id := 1, quantity := 1 }] exDB _ hmem⟩

/-- C5 counterexample: a one-day, one-lens booking at 333/day with a 30%
deposit.  The inserted deposit is exactly `333 * 30 / 100 = 99.9`, while
`round(total_cost * 30 / 100) = 100` — the code applies no rounding, so
the claim's equation fails at this input. -/
theorem c5_deposit_not_rounded_counterexample :
    (newBookingRow 7 9 exLensForm [exLens]).total_cost = 333 ∧
    (newBookingRow 7 9 exLensForm [exLens]).deposit_amount = 999 / 10 ∧
    (newBookingRow 7 9 exLensForm [exLens]).deposit_amount ≠
      ((round ((newBookingRow 7 9 exLensForm [exLens]).total_cost * 30 / 100) : ℤ) : ℚ) := by
  have ht : (newBookingRow 7 9 exLensForm [exLens]).total_cost = 333 := by
    norm_num [newBookingRow, newCalculateTotal, findItem, exLensForm, exLens,
      List.find?]
  have hd : (newBookingRow 7 9 exLensForm [exLens]).deposit_amount = 999 / 10 := by
    norm_num [newBookingRow, newCalculateTotal, findItem, exLensForm, exLens,
      List.find?]
  refine ⟨ht, hd, ?_⟩
  rw [hd, ht]
  norm_num [round_eq]

/-- C5 amended: for every customer-flow booking with deposit percentage
in {30, 50, 100}, the inserted `deposit_amount` equals
`total_cost * p / 100` exactly (no rounding) and `balance_amount` equals
`total_cost` minus that deposit. -/
theorem c5_deposit_exact_fraction (bid customer : Nat) (form : NewBookingForm)
    (inv : List InventoryItem)
    (_hp : form.deposit_percentage = 30 ∨ form.deposit_percentage = 50 ∨
      form.deposit_percentage = 100) :
    (newBookingRow bid customer form inv).deposit_amount =
      (newBookingRow bid customer form inv).total_cost *
        form.deposit_percentage / 100 ∧
    (newBookingRow bid customer form inv).balance_amount =
      (newBookingRow bid customer form inv).total_cost -
        (newBookingRow bid customer form inv).deposit_amount := by
  constructor <;> simp [newBookingRow]

/-- Witness for the amended C5 at the 30% lens booking. -/
theorem c5_deposit_exact_fraction_witness :
    (exLensForm.deposit_percentage = 30 ∨ exLensForm.deposit_percentage = 50 ∨
      exLensForm.deposit_percentage = 100) ∧
    ((newBookingRow 7 9 exLensForm [exLens]).deposit_amount =
      (newBookingRow 7 9 exLensForm [exLens]).total_cost *
        exLensForm.deposit_percentage / 100 ∧
     (newBookingRow 7 9 exLensForm [exLens]).balance_amount =
      (newBookingRow 7 9 exLensForm [exLens]).total_cost -
        (newBookingRow 7 9 exLensForm [exLens]).deposit_amount) :=
  ⟨Or.inl rfl, c5_deposit_exact_fraction 7 9 exLensForm [exLens] (Or.inl rfl)⟩

/-- C3 counterexample: for start = 2024-01-01 (epoch day 19723) and
end = 2024-01-03 (epoch day 19725), one item at 1000/day, quantity 1,
the creating workflow computes duration 2 — not the claimed inclusive
3 — and total 2000, not 3000. -/
theorem c3_inclusive_duration_counterexample :
    bookingsRentalDays 19723 19725 = 2 ∧
    bookingsRentalDays 19723 19725 ≠ 3 ∧
    bookingsCalculateTotal [exCamera] [{ item_id := 1, quantity := 1 }]
      19723 19725 = 2000 ∧
    bookingsCalculateTotal [exCamera] [{ item_id := 1, quantity := 1 }]
      19723 19725 ≠ 3000 := by
  have hd : bookingsRentalDays 19723 19725 = 2 := by
    rw [bookingsRentalDays_eq]
    norm_num
  have ht : bookingsCalculateTotal [exCamera] [{ item_id := 1, quantity := 1 }]
      19723 19725 = 2000 := by
    norm_num [bookingsCalculateTotal, hd, findItem, exCamera, List.find?]
  exact ⟨hd, by rw [hd]; norm_num, ht, by rw [ht]; norm_num⟩

/-- C3 amended: a booking created from explicit start and end dates (the
staff Bookings flow) uses the exclusive day count
`ceil((end - start) / 1 day) = end - start`, with no `+ 1`; for the
2024-01-01 → 2024-01-03 scenario at 1000/day, quantity 1, the workflow
computes duration 2 and total 2000, and with the staff-entered deposit
of 1000 the balance is 1000.  The inclusive `+ 1` count — 3 days for
this booking — appears only in the read-only MyBookings display. -/
theorem c3_staff_duration_exclusive :
    (∀ s e : ℤ, bookingsRentalDays s e = e - s) ∧
    (staffBookingRow 7 9 19723 19725 1000 [exCamera]
        [{ item_id := 1, quantity := 1 }]).total_cost = 2000 ∧
    (staffBookingRow 7 9 19723 19725 1000 [exCamera]
        [{ item_id := 1, quantity := 1 }]).deposit_amount = 1000 ∧
    (staffBookingRow 7 9 19723 19725 1000 [exCamera]
        [{ item_id := 1, quantity := 1 }]).balance_amount = 1000 ∧
    (∀ s e : ℤ, myBookingsCalculateDays s e = |e - s| + 1) ∧
    myBookingsCalculateDays 19723 19725 = 3 := by
  have ht : bookingsCalculateTotal [exCamera] [{ item_id := 1, quantity := 1 }]
      19723 19725 = 2000 := by
    norm_num [bookingsCalculateTotal, bookingsRentalDays_eq, findItem, exCamera,
      List.find?]
  refine ⟨bookingsRentalDays_eq, ?_, ?_, ?_, myBookingsCalculateDays_eq, ?_⟩
  · simpa [staffBookingRow] using ht
  · simp [staffBookingRow]
  · rw [show (staffBookingRow 7 9 19723 19725 1000 [exCamera]
        [{ item_id := 1, quantity := 1 }]).balance_amount =
        bookingsCalculateTotal [exCamera] [{ item_id := 1, quantity := 1 }]
          19723 19725 - 1000 from rfl, ht]
    norm_num
  · rw [myBookingsCalculateDays_eq]
    norm_num

/-- C9: the staff/admin Bookings-screen submission never modifies the
`inventory_items` table — for any items and quantities (also ones
exceeding available stock) and any failure schedule, every inventory row
is unchanged. -/
theorem c9_staff_submit_preserves_inventory (ok1 ok2 : Bool)
    (bid customer : Nat) (startDay endDay : ℤ) (depositInput : ℚ)
    (items : List BookingLine) (db : DB) :
    (staffSubmit ok1 ok2 bid customer startDay endDay depositInput items
        db).db.inventory_items = db.inventory_items := by
  unfold staffSubmit
  cases ok1 <;> cases ok2 <;> simp

/-- C1 counterexample: the staff/admin Bookings flow performs no stock
validation.  Requesting 3 cameras when only 2 are available succeeds —
no error, and both a booking row and a line-item row are written — so
the claim fails on that creation path. -/
theorem c1_staff_overstock_counterexample :
    exCamera.available_quantity < 3 ∧
    (staffSubmit true true 7 9 19723 19725 500
      [{ item_id := 1, quantity := 3 }] exDB).error = none ∧
    (staffSubmit true true 7 9 19723 19725 500
      [{ item_id := 1, quantity := 3 }] exDB).db.bookings.length = 1 ∧
    (staffSubmit true true 7 9 19723 19725 500
      [{ item_id := 1, quantity := 3 }] exDB).db.booking_items.length = 1 := by
  refine ⟨by norm_num [exCamera], rfl, rfl, rfl⟩

/-- C1 amended: in the customer NewBooking flow, whenever some line's
requested quantity exceeds that item's `available_quantity` in the
snapshot used for validation, submission fails with the stock-exceeded
error naming the (first) line failing validation, and the database is
entirely unchanged — no booking, booking-item, or inventory write. -/
theorem c1_newbooking_overstock_fails_no_writes
    (sched : WriteSched) (bid customer : Nat) (form : NewBookingForm) (db : DB)
    (h : ∃ l ∈ form.items, ∃ it,
      findItem db.inventory_items l.item_id = some it ∧
      it.available_quantity < l.quantity) :
    (newBookingSubmit sched bid customer form db).db = db ∧
    ∃ l' ∈ form.items,
      validateQuantity db.inventory_items l'.item_id l'.quantity = false ∧
      (newBookingSubmit sched bid customer form db).error =
        some (stockErrorMsg db.inventory_items l'.item_id) := by
  obtain ⟨l, hl, it, hit, hlt⟩ := h
  have hp : (!(validateQuantity db.inventory_items l.item_id l.quantity)) = true := by
    have hn : ¬ (l.quantity ≤ it.available_quantity) := not_le.mpr hlt
    simp [validateQuantity, hit, hn]
  have hsome : (form.items.find?
      (fun x => !(validateQuantity db.inventory_items x.item_id x.quantity))).isSome := by
    rw [List.find?_isSome]
    exact ⟨l, hl, hp⟩
  obtain ⟨l', hfi⟩ := Option.isSome_iff_exists.mp hsome
  have hfi' : firstInvalidLine db.inventory_items form.items = some l' := hfi
  have hmem : l' ∈ form.items := List.mem_of_find?_eq_some hfi
  have hval : (!(validateQuantity db.inventory_items l'.item_id l'.quantity)) = true := by
    have hv := List.find?_some hfi
    simpa using hv
  refine ⟨?_, l', hmem, by simpa using hval, ?_⟩
  · simp [newBookingSubmit, hfi']
  · simp [newBookingSubmit, hfi']

/-- Witness for the amended C1: requesting 3 cameras (2 available) in
the customer flow fails with the stock-exceeded error and leaves the
database unchanged. -/
theorem c1_newbooking_overstock_fails_no_writes_witness :
    (newBookingSubmit (allOk 1) 7 9 exOverForm exDB).db = exDB ∧
    ∃ l' ∈ exOverForm.items,
      validateQuantity exDB.inventory_items l'.item_id l'.quantity = false ∧
      (newBookingSubmit (allOk 1) 7 9 exOverForm exDB).error =
        some (stockErrorMsg exDB.inventory_items l'.item_id) :=
  c1_newbooking_overstock_fails_no_writes (allOk 1) 7 9 exOverForm exDB
    ⟨{ item_id := 1, quantity := 3 }, by simp [exOverForm], exCamera, rfl,
      by norm_num [exCamera]⟩

/-- C2: once the booking-row insert succeeded, a failure of the
booking-items insert or of an inventory decrement aborts the remaining
steps but rolls nothing back.  If step 2 fails, the booking row is in
the final state with no line items and no stock change; if step 2
succeeds, the line items are in too, and the inventory holds the
decrements of exactly a prefix of the lines — a proper prefix (with an
error surfaced) when the failure budget is below the number of update
calls, all lines (with no error) otherwise. -/
theorem c2_partial_failure_no_rollback
    (sched : WriteSched) (bid customer : Nat) (form : NewBookingForm) (db : DB)
    (hval : firstInvalidLine db.inventory_items form.items = none)
    (h1 : sched.insertBookingOk = true) :
    (newBookingSubmit sched bid customer form db).db.bookings =
      db.bookings ++ [newBookingRow bid customer form db.inventory_items] ∧
    (sched.insertItemsOk = false →
      (newBookingSubmit sched bid customer form db).db.booking_items =
        db.booking_items ∧
      (newBookingSubmit sched bid customer form db).db.inventory_items =
        db.inventory_items ∧
      (newBookingSubmit sched bid customer form db).error =
        some "booking items insert failed") ∧
    (sched.insertItemsOk = true →
      (newBookingSubmit sched bid customer form db).db.booking_items =
        db.booking_items
          ++ newBookingItems bid db.inventory_items form.items form.rental_days ∧
      ∃ k ≤ form.items.length,
        (newBookingSubmit sched bid customer form db).db.inventory_items =
          applyDecrements db.inventory_items (form.items.take k)
            db.inventory_items ∧
        (sched.invBudget < numUpdateCalls db.inventory_items form.items →
          (newBookingSubmit sched bid customer form db).error =
            some "inventory update failed" ∧ k < form.items.length) ∧
        (numUpdateCalls db.inventory_items form.items ≤ sched.invBudget →
          (newBookingSubmit sched bid customer form db).error = none ∧
          k = form.items.length)) := by
  cases hi : sched.insertItemsOk with
  | false =>
      have hres : newBookingSubmit sched bid customer form db =
          { db := { bookings := db.bookings
                      ++ [newBookingRow bid customer form db.inventory_items],
                    booking_items := db.booking_items,
                    inventory_items := db.inventory_items },
            error := some "booking items insert failed" } := by
        simp [newBookingSubmit, hval, h1, hi]
      rw [hres]
      exact ⟨rfl, fun _ => ⟨rfl, rfl, rfl⟩, fun hc => by simp [hi] at hc⟩
  | true =>
      obtain ⟨k, hk, heq, hlt, hfull⟩ := runDecrements_spec db.inventory_items
        form.items sched.invBudget db.inventory_items
      have hres : newBookingSubmit sched bid customer form db =
          { db := { bookings := db.bookings
                      ++ [newBookingRow bid customer form db.inventory_items],
                    booking_items := db.booking_items
                      ++ newBookingItems bid db.inventory_items form.items
                          form.rental_days,
                    inventory_items := (runDecrements db.inventory_items
                      sched.invBudget form.items db.inventory_items).1 },
            error := (runDecrements db.inventory_items sched.invBudget
              form.items db.inventory_items).2 } := by
        simp [newBookingSubmit, hval, h1, hi]
      rw [hres]
      refine ⟨rfl, fun hc => by simp [hi] at hc,
        fun _ => ⟨rfl, k, hk, ?_, ?_, ?_⟩⟩
      · rw [heq]
      · intro hb
        exact ⟨by simp [heq, hb], hlt hb⟩
      · intro hb
        exact ⟨by simp [heq, not_lt.mpr hb], hfull hb⟩

/-- Witness for C2: within-stock form, booking insert succeeds, item
insert fails — the booking row is committed alone. -/
theorem c2_partial_failure_no_rollback_witness :
    (newBookingSubmit ⟨true, false, 9⟩ 7 9 exOkForm exDB).db.bookings =
      [newBookingRow 7 9 exOkForm exDB.inventory_items] ∧
    (newBookingSubmit ⟨true, false, 9⟩ 7 9 exOkForm exDB).db.booking_items = [] ∧
    (newBookingSubmit ⟨true, false, 9⟩ 7 9 exOkForm exDB).db.inventory_items =
      [exCamera] ∧
    (newBookingSubmit ⟨true, false, 9⟩ 7 9 exOkForm exDB).error =
      some "booking items insert failed" := by
  have h := c2_partial_failure_no_rollback ⟨true, false, 9⟩ 7 9 exOkForm exDB
    rfl rfl
  obtain ⟨hb, h2, -⟩ := h
  obtain ⟨hbi, hinv, herr⟩ := h2 rfl
  exact ⟨by simpa [exDB] using hb, by simpa [exDB] using hbi,
    by simpa [exDB] using hinv, herr⟩

end LensLink
